import Mathlib

/-!
Verification of the browsing-level bitflag codec from
`src/shared/constants/browsingLevel.constants.ts`.

Levels are small integers; a mask is the bitwise OR of the levels it
contains.  The source file imports `NsfwLevel` from `~/server/common/enums`
and the `Flags` helper from `~/shared/utils`; neither module is part of the
given sources, so those two pieces are modelled from the specification
(distinct powers of two for the five combinable ranks, a sentinel outside
the combinable set, and bit-level encode/decode/intersect helpers).  The
rest is a direct embedding of the TypeScript source.
-/

namespace Civitai

/-- Modelled from the spec: the `NsfwLevel` enumeration of
`~/server/common/enums` is absent from the sources.  Per §3 the five ranks
are distinct powers of two so that sets of ranks combine by bitwise OR. -/
def NsfwLevel.PG : Nat := 1

/-- Modelled from the spec: second rank, next power of two. -/
def NsfwLevel.PG13 : Nat := 2

/-- Modelled from the spec: third rank. -/
def NsfwLevel.R : Nat := 4

/-- Modelled from the spec: fourth rank. -/
def NsfwLevel.X : Nat := 8

/-- Modelled from the spec: fifth rank. -/
def NsfwLevel.XXX : Nat := 16

/-- Modelled from the spec: the `Blocked` sentinel sits outside the five
combinable ranks, on its own bit position. -/
def NsfwLevel.Blocked : Nat := 32

/-- The fixed five-element enumeration, in display order
(`browsingLevels` in the source). -/
def browsingLevels : List Nat :=
  [NsfwLevel.PG, NsfwLevel.PG13, NsfwLevel.R, NsfwLevel.X, NsfwLevel.XXX]

/-- Modelled from the spec: `Flags.arrayToInstance` of `~/shared/utils` is
absent from the sources.  Per §4.1, `encode` returns the bitwise OR of the
given levels (empty input gives mask 0). -/
def Flags.arrayToInstance (levels : List Nat) : Nat :=
  levels.foldl (· ||| ·) 0

/-- Modelled from the spec: `Flags.instanceToArray` of `~/shared/utils` is
absent from the sources.  Per §4.1, `decode` returns every level of the
fixed five-rank enumeration, in enumeration order, whose bit is set in the
mask; bit positions outside the five ranks are never inspected. -/
def Flags.instanceToArray (mask : Nat) : List Nat :=
  browsingLevels.filter (fun b => mask &&& b != 0)

/-- Modelled from the spec: `Flags.intersects` of `~/shared/utils` is
absent from the sources.  Per §4.1 it is true iff the bitwise AND of the
two masks is non-zero. -/
def Flags.intersects (a b : Nat) : Bool :=
  a &&& b != 0

/-- `parseBitwiseBrowsingLevel` from the source: decode a mask. -/
def parseBitwiseBrowsingLevel (level : Nat) : List Nat :=
  Flags.instanceToArray level

/-- `flagifyBrowsingLevel` from the source: encode a list of levels. -/
def flagifyBrowsingLevel (levels : List Nat) : Nat :=
  Flags.arrayToInstance levels

/-- `publicBrowsingLevelsArray` from the source. -/
def publicBrowsingLevelsArray : List Nat := [NsfwLevel.PG]

/-- `publicBrowsingLevelsFlag` from the source. -/
def publicBrowsingLevelsFlag : Nat :=
  flagifyBrowsingLevel publicBrowsingLevelsArray

/-- `sfwBrowsingLevelsArray` from the source. -/
def sfwBrowsingLevelsArray : List Nat := [NsfwLevel.PG, NsfwLevel.PG13]

/-- `sfwBrowsingLevelsFlag` from the source. -/
def sfwBrowsingLevelsFlag : Nat :=
  flagifyBrowsingLevel sfwBrowsingLevelsArray

/-- `nsfwBrowsingLevelsArray` from the source. -/
def nsfwBrowsingLevelsArray : List Nat :=
  [NsfwLevel.R, NsfwLevel.X, NsfwLevel.XXX]

/-- `nsfwBrowsingLevelsFlag` from the source. -/
def nsfwBrowsingLevelsFlag : Nat :=
  flagifyBrowsingLevel nsfwBrowsingLevelsArray

/-- `allBrowsingLevelsFlag` from the source. -/
def allBrowsingLevelsFlag : Nat :=
  flagifyBrowsingLevel browsingLevels

/-- `getIsPublicBrowsingLevel` from the source: decode the mask and test
that every decoded level is in the public array. -/
def getIsPublicBrowsingLevel (level : Nat) : Bool :=
  (parseBitwiseBrowsingLevel level).all
    (fun l => publicBrowsingLevelsArray.contains l)

/-- `getIsSafeBrowsingLevel` from the source: non-zero and not
intersecting the NSFW group mask. -/
def getIsSafeBrowsingLevel (level : Nat) : Bool :=
  level != 0 && !(Flags.intersects level nsfwBrowsingLevelsFlag)

/-- `browsingLevelOr` from the source: return the first truthy (defined
and non-zero) element, else the public flag.  `undefined` entries are
modelled as `none` and JS truthiness of a number as `≠ 0`. -/
def browsingLevelOr : List (Option Nat) → Nat
  | [] => publicBrowsingLevelsFlag
  | some v :: rest => if v != 0 then v else browsingLevelOr rest
  | none :: rest => browsingLevelOr rest

/-- `NsfwLevelDeprecated` from the source: the legacy five-value enum. -/
inductive NsfwLevelDeprecated where
  | None
  | Soft
  | Mature
  | X
  | Blocked
deriving DecidableEq, Repr

/-- `nsfwLevelMapDeprecated` from the source: forward legacy lookup. -/
def nsfwLevelMapDeprecated : NsfwLevelDeprecated → Nat
  | .None => NsfwLevel.PG
  | .Soft => NsfwLevel.PG13
  | .Mature => NsfwLevel.R
  | .X => flagifyBrowsingLevel [NsfwLevel.X, NsfwLevel.XXX]
  | .Blocked => NsfwLevel.Blocked

/-- `nsfwLevelReverseMapDeprecated` from the source: a record keyed by the
six single level values; lookup of any other key yields `undefined`,
modelled as `none`. -/
def nsfwLevelReverseMapDeprecated (level : Nat) : Option NsfwLevelDeprecated :=
  if level = NsfwLevel.PG then some .None
  else if level = NsfwLevel.PG13 then some .Soft
  else if level = NsfwLevel.R then some .Mature
  else if level = NsfwLevel.X then some .X
  else if level = NsfwLevel.XXX then some .X
  else if level = NsfwLevel.Blocked then some .Blocked
  else none

/-- `getNsfwLeveLDeprecatedReverseMapping` from the source: reverse lookup
with the `?? NsfwLevelDeprecated.None` fallback. -/
def getNsfwLeveLDeprecatedReverseMapping (level : Nat) : NsfwLevelDeprecated :=
  (nsfwLevelReverseMapDeprecated level).getD .None

/-! ### Helper lemmas about bitwise OR/AND and the encoder -/

lemma foldl_lor_acc (l : List Nat) : ∀ a : Nat,
    l.foldl (· ||| ·) a = a ||| l.foldl (· ||| ·) 0 := by
  induction l with
  | nil => intro a; simp
  | cons b t ih =>
    intro a
    simp only [List.foldl_cons]
    rw [ih (a ||| b), ih (0 ||| b), Nat.zero_or, Nat.lor_assoc]

lemma flagify_cons (a : Nat) (t : List Nat) :
    flagifyBrowsingLevel (a :: t) = a ||| flagifyBrowsingLevel t := by
  unfold flagifyBrowsingLevel Flags.arrayToInstance
  simp only [List.foldl_cons]
  rw [foldl_lor_acc t (0 ||| a), Nat.zero_or]

lemma land_lor_distrib (a b c : Nat) :
    (a ||| b) &&& c = (a &&& c) ||| (b &&& c) := by
  apply Nat.eq_of_testBit_eq
  intro i
  simp only [Nat.testBit_and, Nat.testBit_or]
  cases a.testBit i <;> cases b.testBit i <;> cases c.testBit i <;> rfl

lemma lor_eq_zero_iff (a b : Nat) : a ||| b = 0 ↔ a = 0 ∧ b = 0 := by
  constructor
  · intro h
    constructor
    · apply Nat.eq_of_testBit_eq
      intro i
      have hi := congrArg (fun n => Nat.testBit n i) h
      simp only [Nat.testBit_or, Nat.zero_testBit, Bool.or_eq_false_iff] at hi
      simp [hi.1]
    · apply Nat.eq_of_testBit_eq
      intro i
      have hi := congrArg (fun n => Nat.testBit n i) h
      simp only [Nat.testBit_or, Nat.zero_testBit, Bool.or_eq_false_iff] at hi
      simp [hi.2]
  · rintro ⟨rfl, rfl⟩
    rfl

lemma lor_land_ne_zero_iff (a b x : Nat) :
    (a ||| b) &&& x ≠ 0 ↔ a &&& x ≠ 0 ∨ b &&& x ≠ 0 := by
  rw [land_lor_distrib]
  rw [ne_eq, lor_eq_zero_iff, not_and_or]

lemma rank_land_ne_zero_iff :
    ∀ a ∈ browsingLevels, ∀ x ∈ browsingLevels, (a &&& x ≠ 0 ↔ a = x) := by
  decide

/-- For a list of ranks, the encoded mask hits exactly the ranks in the
list: the bit test against the encoded mask recovers list membership. -/
lemma flagify_mem_iff (l : List Nat) (hl : ∀ y ∈ l, y ∈ browsingLevels)
    (x : Nat) (hx : x ∈ browsingLevels) :
    flagifyBrowsingLevel l &&& x ≠ 0 ↔ x ∈ l := by
  induction l with
  | nil =>
    simp [flagifyBrowsingLevel, Flags.arrayToInstance]
  | cons a t ih =>
    have ha : a ∈ browsingLevels := hl a (List.mem_cons_self a t)
    have ht : ∀ y ∈ t, y ∈ browsingLevels := fun y hy => hl y (List.mem_cons_of_mem a hy)
    rw [flagify_cons, lor_land_ne_zero_iff, rank_land_ne_zero_iff a ha x hx,
      ih ht, List.mem_cons, eq_comm]

/-! ### Claim theorems -/

/-- C1: decoding the mask obtained by encoding any sequence of ranks
returns exactly the ranks of the sequence's element set, in the fixed
enumeration order (duplicates and input order are irrelevant), and
re-encoding the decode of any mask built from the five ranks (that is,
any mask below 32) reproduces the mask. -/
theorem decode_encode_roundtrip :
    (∀ l : List Nat, (∀ y ∈ l, y ∈ browsingLevels) →
      parseBitwiseBrowsingLevel (flagifyBrowsingLevel l) =
        browsingLevels.filter (fun x => decide (x ∈ l))) ∧
    (∀ m : Nat, m < 32 →
      flagifyBrowsingLevel (parseBitwiseBrowsingLevel m) = m) := by
  constructor
  · intro l hl
    unfold parseBitwiseBrowsingLevel Flags.instanceToArray
    apply List.filter_congr
    intro x hx
    rw [Bool.eq_iff_iff]
    simp only [bne_iff_ne, decide_eq_true_eq]
    exact flagify_mem_iff l hl x hx
  · decide

/-- Witness for C1: the duplicated, unordered sequence XXX, PG, XXX
decodes back to PG, XXX in enumeration order, and mask 21 survives the
decode-encode round trip. -/
theorem decode_encode_roundtrip_witness :
    parseBitwiseBrowsingLevel
        (flagifyBrowsingLevel [NsfwLevel.XXX, NsfwLevel.PG, NsfwLevel.XXX]) =
      [NsfwLevel.PG, NsfwLevel.XXX] ∧
    flagifyBrowsingLevel (parseBitwiseBrowsingLevel 21) = 21 := by
  constructor
  · have h := decode_encode_roundtrip.1
      [NsfwLevel.XXX, NsfwLevel.PG, NsfwLevel.XXX] (by decide)
    rw [h]
    decide
  · exact decode_encode_roundtrip.2 21 (by decide)

/-- C2: every element of a decoded mask belongs to the fixed five-element
enumeration; in particular the Blocked sentinel is never present in a
decode, whatever bits the mask has set. -/
theorem decode_within_ranks (m : Nat) :
    (∀ x ∈ parseBitwiseBrowsingLevel m, x ∈ browsingLevels) ∧
    NsfwLevel.Blocked ∉ parseBitwiseBrowsingLevel m := by
  constructor
  · intro x hx
    simp only [parseBitwiseBrowsingLevel, Flags.instanceToArray,
      List.mem_filter] at hx
    exact hx.1
  · intro hb
    simp only [parseBitwiseBrowsingLevel, Flags.instanceToArray,
      List.mem_filter] at hb
    exact absurd hb.1 (by decide)

/-- Witness for C2: mask 63 has the Blocked bit set, yet Blocked is not
decoded from it, while PG (which it does decode) is one of the five
ranks. -/
theorem decode_within_ranks_witness :
    NsfwLevel.Blocked ∉ parseBitwiseBrowsingLevel 63 ∧
    NsfwLevel.PG ∈ browsingLevels := by
  refine ⟨(decode_within_ranks 63).2, (decode_within_ranks 63).1 NsfwLevel.PG ?_⟩
  decide

/-- C3: a mask is safe exactly when it is non-zero and does not intersect
the NotSafeForWork group mask; mask 0 is not safe, the PG mask is safe,
and a mask containing R is not. -/
theorem safe_level_iff (m : Nat) :
    (getIsSafeBrowsingLevel m = true ↔
      m ≠ 0 ∧ m &&& nsfwBrowsingLevelsFlag = 0) ∧
    getIsSafeBrowsingLevel 0 = false ∧
    getIsSafeBrowsingLevel (flagifyBrowsingLevel [NsfwLevel.PG]) = true ∧
    getIsSafeBrowsingLevel (flagifyBrowsingLevel [NsfwLevel.PG, NsfwLevel.R]) = false := by
  refine ⟨?_, by decide, by decide, by decide⟩
  simp [getIsSafeBrowsingLevel, Flags.intersects]

/-- Witness for C3: the PG mask (1) is non-zero and misses the NSFW mask,
so it is safe. -/
theorem safe_level_iff_witness : getIsSafeBrowsingLevel 1 = true :=
  ((safe_level_iff 1).1).mpr (by decide)

/-- C4: a mask is public exactly when every decoded level lies in the
Public group's array; mask 0 decodes to the empty list and is vacuously
public, the PG mask is public, and the PG|PG13 mask is not. -/
theorem public_level_iff (m : Nat) :
    (getIsPublicBrowsingLevel m = true ↔
      ∀ x ∈ parseBitwiseBrowsingLevel m, x ∈ publicBrowsingLevelsArray) ∧
    parseBitwiseBrowsingLevel 0 = [] ∧
    getIsPublicBrowsingLevel 0 = true ∧
    getIsPublicBrowsingLevel (flagifyBrowsingLevel [NsfwLevel.PG]) = true ∧
    getIsPublicBrowsingLevel (flagifyBrowsingLevel [NsfwLevel.PG, NsfwLevel.PG13]) = false := by
  refine ⟨?_, by decide, by decide, by decide, by decide⟩
  simp [getIsPublicBrowsingLevel, List.all_eq_true, List.contains]

/-- Witness for C4: the PG mask (1) decodes to levels that all lie in the
Public array, so it is public. -/
theorem public_level_iff_witness : getIsPublicBrowsingLevel 1 = true :=
  ((public_level_iff 1).1).mpr (by decide)

/-- C5: `browsingLevelOr` returns the first defined, non-zero element of
its input (the head of the input with undefined and zero entries removed),
falling back to the Public group's mask; in particular the two example
inputs from the spec behave as stated. -/
theorem browsingLevelOr_first_nonzero :
    (∀ l : List (Option Nat),
      browsingLevelOr l =
        ((l.filterMap id).filter (fun v => v != 0)).headD publicBrowsingLevelsFlag) ∧
    browsingLevelOr [none, some 0, some NsfwLevel.R] = NsfwLevel.R ∧
    browsingLevelOr [none, some 0] = publicBrowsingLevelsFlag := by
  refine ⟨?_, by decide, by decide⟩
  intro l
  induction l with
  | nil => rfl
  | cons a t ih =>
    cases a with
    | none =>
      simpa [browsingLevelOr] using ih
    | some v =>
      by_cases hv : v = 0
      · subst hv
        simpa [browsingLevelOr] using ih
      · simp [browsingLevelOr, hv]

/-- C6: the reverse legacy mapping returns the table entry for each of
the six single level values, maps both X and XXX to the legacy X, and
returns None for every input outside the table, masks combining several
ranks included. -/
theorem legacy_reverse_mapping :
    (getNsfwLeveLDeprecatedReverseMapping NsfwLevel.PG = NsfwLevelDeprecated.None ∧
     getNsfwLeveLDeprecatedReverseMapping NsfwLevel.PG13 = NsfwLevelDeprecated.Soft ∧
     getNsfwLeveLDeprecatedReverseMapping NsfwLevel.R = NsfwLevelDeprecated.Mature ∧
     getNsfwLeveLDeprecatedReverseMapping NsfwLevel.X = NsfwLevelDeprecated.X ∧
     getNsfwLeveLDeprecatedReverseMapping NsfwLevel.XXX = NsfwLevelDeprecated.X ∧
     getNsfwLeveLDeprecatedReverseMapping NsfwLevel.Blocked = NsfwLevelDeprecated.Blocked) ∧
    ∀ m : Nat, m ∉ ([1, 2, 4, 8, 16, 32] : List Nat) →
      getNsfwLeveLDeprecatedReverseMapping m = NsfwLevelDeprecated.None := by
  refine ⟨by decide, ?_⟩
  intro m hm
  simp only [List.mem_cons, List.not_mem_nil, or_false, not_or] at hm
  obtain ⟨h1, h2, h4, h8, h16, h32⟩ := hm
  simp [getNsfwLeveLDeprecatedReverseMapping, nsfwLevelReverseMapDeprecated,
    NsfwLevel.PG, NsfwLevel.PG13, NsfwLevel.R, NsfwLevel.X, NsfwLevel.XXX,
    NsfwLevel.Blocked, h1, h2, h4, h8, h16, h32]

/-- Witness for C6: 24 is the mask combining ranks X and XXX; it is not a
table key, so the reverse mapping falls back to None. -/
theorem legacy_reverse_mapping_witness :
    getNsfwLeveLDeprecatedReverseMapping 24 = NsfwLevelDeprecated.None :=
  legacy_reverse_mapping.2 24 (by decide)

/-- C7: the forward legacy mapping sends the legacy X to the union mask
of ranks X and XXX, and that mask intersects both the X bit and the XXX
bit. -/
theorem legacy_forward_X_mapping :
    nsfwLevelMapDeprecated NsfwLevelDeprecated.X =
      flagifyBrowsingLevel [NsfwLevel.X, NsfwLevel.XXX] ∧
    nsfwLevelMapDeprecated NsfwLevelDeprecated.X = NsfwLevel.X ||| NsfwLevel.XXX ∧
    Flags.intersects (nsfwLevelMapDeprecated NsfwLevelDeprecated.X) NsfwLevel.X = true ∧
    Flags.intersects (nsfwLevelMapDeprecated NsfwLevelDeprecated.X) NsfwLevel.XXX = true := by
  decide

/-- C8: the four predefined group masks are fixed points of
decode-then-encode, Public holds exactly the single rank PG, SafeForWork
holds two ranks including PG, NotSafeForWork holds three ranks, and the
All mask is the bitwise OR of the SafeForWork and NotSafeForWork masks. -/
theorem group_masks_fixed_points :
    flagifyBrowsingLevel (parseBitwiseBrowsingLevel publicBrowsingLevelsFlag) =
      publicBrowsingLevelsFlag ∧
    flagifyBrowsingLevel (parseBitwiseBrowsingLevel sfwBrowsingLevelsFlag) =
      sfwBrowsingLevelsFlag ∧
    flagifyBrowsingLevel (parseBitwiseBrowsingLevel nsfwBrowsingLevelsFlag) =
      nsfwBrowsingLevelsFlag ∧
    flagifyBrowsingLevel (parseBitwiseBrowsingLevel allBrowsingLevelsFlag) =
      allBrowsingLevelsFlag ∧
    publicBrowsingLevelsArray = [NsfwLevel.PG] ∧
    sfwBrowsingLevelsArray.length = 2 ∧
    NsfwLevel.PG ∈ sfwBrowsingLevelsArray ∧
    nsfwBrowsingLevelsArray.length = 3 ∧
    allBrowsingLevelsFlag = sfwBrowsingLevelsFlag ||| nsfwBrowsingLevelsFlag := by
  decide

/-- C9: the reverse legacy mapping sends the Blocked sentinel to the
legacy Blocked value, not to the None fallback. -/
theorem blocked_reverse_mapping :
    getNsfwLeveLDeprecatedReverseMapping NsfwLevel.Blocked =
      NsfwLevelDeprecated.Blocked ∧
    getNsfwLeveLDeprecatedReverseMapping NsfwLevel.Blocked ≠
      NsfwLevelDeprecated.None := by
  decide

/-- C10: the SafeForWork and NotSafeForWork group masks are disjoint, and
every mask judged safe decodes to ranks drawn only from the SafeForWork
array (PG and PG13). -/
theorem safe_masks_decode_sfw :
    sfwBrowsingLevelsFlag &&& nsfwBrowsingLevelsFlag = 0 ∧
    ∀ m : Nat, getIsSafeBrowsingLevel m = true →
      ∀ x ∈ parseBitwiseBrowsingLevel m, x ∈ sfwBrowsingLevelsArray := by
  refine ⟨by decide, ?_⟩
  intro m hm x hx
  have hm2 : m &&& nsfwBrowsingLevelsFlag = 0 := by
    simp [getIsSafeBrowsingLevel, Flags.intersects] at hm
    exact hm.2
  have h28 : m &&& 28 = 0 := by
    have e : nsfwBrowsingLevelsFlag = 28 := by decide
    rw [e] at hm2
    exact hm2
  simp only [parseBitwiseBrowsingLevel, Flags.instanceToArray, List.mem_filter,
    bne_iff_ne] at hx
  obtain ⟨hxB, hxbit⟩ := hx
  have hx5 : x = 1 ∨ x = 2 ∨ x = 4 ∨ x = 8 ∨ x = 16 := by
    simpa [browsingLevels, NsfwLevel.PG, NsfwLevel.PG13, NsfwLevel.R,
      NsfwLevel.X, NsfwLevel.XXX] using hxB
  have hzero : ∀ b : Nat, 28 &&& b = b → m &&& b = 0 := by
    intro b hb
    rw [← hb, ← Nat.land_assoc, h28, Nat.zero_and]
  rcases hx5 with rfl | rfl | rfl | rfl | rfl
  · decide
  · decide
  · exact absurd (hzero 4 (by decide)) hxbit
  · exact absurd (hzero 8 (by decide)) hxbit
  · exact absurd (hzero 16 (by decide)) hxbit

/-- Witness for C10: mask 2 is safe, and the rank PG13 it decodes to lies
in the SafeForWork array. -/
theorem safe_masks_decode_sfw_witness :
    NsfwLevel.PG13 ∈ sfwBrowsingLevelsArray :=
  safe_masks_decode_sfw.2 2 (by decide) NsfwLevel.PG13 (by decide)

end Civitai
